import Mathlib

/-!
Verification of the CipherShed EFI service-menu conversion engine
(src/Boot/EFI/cs_service.c) against its natural-language specification.

The C source is shallowly embedded: every function of the file becomes a
Lean definition with the same name, machine integers (UINT64 / UINTN,
both 64 bit in this loader) become Nat with explicit wrap-around modulo
2^64 where C arithmetic can wrap, and calls into external firmware
services (block reads and writes, the console, the header-persistence
routine, the crypto driver) become explicit input parameters that tell
the embedded code what each external call would have returned.
-/

namespace CipherShed

/-- Machine-word modulus: UINTN and UINT64 are 64 bit wide in this
loader, so C unsigned arithmetic wraps modulo this value (2 to the 64). -/
def W : Nat := 18446744073709551616

/-- C unsigned 64-bit addition, wrapping modulo W. -/
def add64 (a b : Nat) : Nat := (a + b) % W

/-- C unsigned 64-bit subtraction, wrapping modulo W. -/
def sub64 (a b : Nat) : Nat := (a + (W - b % W)) % W

/-- Modelled from the spec: TC_LB_SIZE_BIT_SHIFT_DIVISOR comes from a
TrueCrypt header that is not part of this repository snapshot; the spec
calls it the sector-size shift, converting between byte counts and
512-byte logical-block counts, hence the value 9. -/
def TC_LB_SIZE_BIT_SHIFT_DIVISOR : Nat := 9

/-- The EFI status codes that occur in cs_service.c, plus a catch-all
for any other error code an external service may return. -/
inductive Status where
  | success
  | accessDenied
  | deviceError
  | volumeCorrupted
  | outOfResources
  | noMedia
  | otherError
  deriving DecidableEq

/-- The EFI_ERROR test: every status other than EFI_SUCCESS is an error. -/
def EFI_ERROR : Status → Bool
  | .success => false
  | _ => true

/-- The three fields of the volume-header CRYPTO_INFO record that the
engine reads and writes: EncryptedAreaStart.Value,
EncryptedAreaLength.Value and VolumeSize.Value, all byte counts held in
UINT64 fields. -/
structure CRYPTO_INFO where
  encryptedAreaStart : Nat
  encryptedAreaLength : Nat
  volumeSize : Nat
  deriving DecidableEq

/-- update_blocks_in_volume_header (cs_service.c lines 235-261).
Recomputes EncryptedAreaLength from the processed LBA and hands the
header to the external persistence routine update_volume_header, whose
return value is supplied here as persistStatus.  The result carries the
returned status, the header as left in memory, and whether
update_volume_header was invoked.  The encrypt flag is taken and ignored
exactly as in the C function. -/
def update_blocks_in_volume_header (processedLba : Nat) (crypto_info : CRYPTO_INFO)
    (encrypt : Bool) (persistStatus : Status) : Status × CRYPTO_INFO × Bool :=
  let startSector := crypto_info.encryptedAreaStart >>> TC_LB_SIZE_BIT_SHIFT_DIVISOR
  let sectorsInVolume := crypto_info.volumeSize >>> TC_LB_SIZE_BIT_SHIFT_DIVISOR
  if processedLba < startSector ∨ processedLba > startSector + sectorsInVolume then
    (.volumeCorrupted, crypto_info, false)
  else
    let numberSectors := processedLba - startSector
    (persistStatus,
     { crypto_info with
        encryptedAreaLength := numberSectors <<< TC_LB_SIZE_BIT_SHIFT_DIVISOR },
     true)

/-- One block-sized I/O action of the conversion loop, recording the
LBA and the sector count passed to ReadBlocks or WriteBlocks. -/
inductive Action where
  | readBlocks (lba sectors : Nat)
  | writeBlocks (lba sectors : Nat)
  deriving DecidableEq

/-- What the external world reports to one iteration of the copy loop:
whether the ReadBlocks call succeeds, whether the WriteBlocks call
succeeds, and whether check_for_ESC finds a pending abort keystroke. -/
structure IterEvents where
  readOk : Bool
  writeOk : Bool
  escPending : Bool
  deriving DecidableEq

/-- The local variables of the copy loop of do_encrypt_decrypt_media:
lba, numberSectors and bufferSectors exactly as in the C function, the
local status variable error (none while still uninitialized), the
iteration counter used to index the external event schedule, and the
trace of block I/O calls issued so far. -/
structure LoopSt where
  lba : Nat
  numberSectors : Nat
  bufferSectors : Nat
  errVar : Option Status
  iter : Nat
  acts : List Action
  deriving DecidableEq

/-- The cursor arithmetic of one successful iteration of the copy loop
(cs_service.c lines 356-368): advance the lba by one buffer width for
encrypt, decrement the remaining sector count, shrink the buffer width
to the remainder when the final chunk is smaller, and retreat the lba by
the new buffer width for decrypt; the read and write just issued are
appended to the trace and the status variable now holds the success of
the write. -/
def stepState (encrypt : Bool) (s : LoopSt) : LoopSt :=
  let lba₁ := if encrypt then add64 s.lba s.bufferSectors else s.lba
  let n₁ := sub64 s.numberSectors s.bufferSectors
  let b₁ := if n₁ < s.bufferSectors then n₁ else s.bufferSectors
  let lba₂ := if encrypt then lba₁ else sub64 lba₁ b₁
  { lba := lba₂, numberSectors := n₁, bufferSectors := b₁,
    errVar := some .success, iter := s.iter + 1,
    acts := s.acts ++ [Action.readBlocks s.lba s.bufferSectors,
                       Action.writeBlocks s.lba s.bufferSectors] }

/-- The while loop of do_encrypt_decrypt_media (cs_service.c lines
333-386), as a fuel-indexed step function; none means the fuel ran out
before the loop exited.  Each iteration reads a chunk from the source,
writes it to the destination (each call recorded in the trace and
breaking out of the loop with the error on failure), performs the cursor
arithmetic of stepState, and finally polls for a pending ESC keystroke,
breaking out after the current chunk when it is found. -/
def convLoop (encrypt : Bool) (sched : Nat → IterEvents) : Nat → LoopSt → Option LoopSt
  | 0, _ => none
  | fuel + 1, s =>
    if s.numberSectors = 0 then some s
    else
      let ev := sched s.iter
      if ev.readOk = false then
        some { s with errVar := some .deviceError,
                      acts := s.acts ++ [Action.readBlocks s.lba s.bufferSectors] }
      else if ev.writeOk = false then
        some { s with errVar := some .deviceError,
                      acts := s.acts ++ [Action.readBlocks s.lba s.bufferSectors,
                                         Action.writeBlocks s.lba s.bufferSectors] }
      else if ev.escPending then some (stepState encrypt s)
      else convLoop encrypt sched fuel (stepState encrypt s)

/-- CS_SERVICE_NUMBER_SECTORS: the number of sectors the engine
converts per chunk (cs_service.c line 18). -/
def CS_SERVICE_NUMBER_SECTORS : Nat := 80

/-- The loop-variable setup of do_encrypt_decrypt_media (cs_service.c
lines 297-325): startSector is 0 (volume-relative), the cursor starts at
the end of the already-encrypted area going forward for encrypt, and one
buffer-width below it going backward for decrypt, where the buffer width
is first clamped to the encrypted sector count. -/
def initLoopSt (cryptoInfo : CRYPTO_INFO) (encrypt : Bool) (bufCap : Nat) : LoopSt :=
  let startSector := 0
  let numberEncryptedSectors :=
    cryptoInfo.encryptedAreaLength >>> TC_LB_SIZE_BIT_SHIFT_DIVISOR
  let endEncryptedArea := startSector + numberEncryptedSectors
  let sectorsInVolume := cryptoInfo.volumeSize >>> TC_LB_SIZE_BIT_SHIFT_DIVISOR
  if encrypt then
    { lba := endEncryptedArea,
      numberSectors := sectorsInVolume - numberEncryptedSectors,
      bufferSectors := bufCap, errVar := none, iter := 0, acts := [] }
  else
    let bufferSectors :=
      if numberEncryptedSectors < bufCap then numberEncryptedSectors else bufCap
    { lba := startSector + numberEncryptedSectors - bufferSectors,
      numberSectors := numberEncryptedSectors,
      bufferSectors := bufferSectors, errVar := none, iter := 0, acts := [] }

/-- Outcome of one run of do_encrypt_decrypt_media: either the final
status together with the in-memory header, the number of calls made to
update_blocks_in_volume_header and the block I/O trace, or undef when
the run reads the local status variable while it is still uninitialized
(undefined behaviour in the C source). -/
inductive RunResult where
  | undef
  | ok (status : Status) (cryptoInfo : CRYPTO_INFO) (updateCalls : Nat) (acts : List Action)
  deriving DecidableEq

/-- The epilogue of do_encrypt_decrypt_media (cs_service.c lines
393-397): translate the final cursor to a disk-relative LBA by adding
the sector index of EncryptedAreaStart, add one buffer width for the
decrypt direction, and persist through update_blocks_in_volume_header. -/
def finishRun (cryptoInfo : CRYPTO_INFO) (encrypt : Bool) (persistStatus : Status)
    (s : LoopSt) : RunResult :=
  let lbaDisk :=
    add64 s.lba (cryptoInfo.encryptedAreaStart >>> TC_LB_SIZE_BIT_SHIFT_DIVISOR)
  let r := update_blocks_in_volume_header
    (if encrypt then lbaDisk else add64 lbaDisk s.bufferSectors)
    cryptoInfo encrypt persistStatus
  .ok r.1 r.2.1 1 s.acts

/-- do_encrypt_decrypt_media (cs_service.c lines 280-400).  External
effects are supplied as parameters: allocOk is whether AllocatePool
succeeds, sched gives each loop iteration its read/write/ESC outcomes,
persistStatus is what update_volume_header would return, and fuel bounds
the number of loop iterations (none means the fuel ran out).  The
volume-consistency guard, the direction-dependent setup, the copy loop
and the guarded header update mirror the source; the header update runs
only when the status variable left by the loop is not an error, and the
run is undef when that variable is read while still uninitialized. -/
def do_encrypt_decrypt_media (cryptoInfo : CRYPTO_INFO) (encrypt : Bool) (bufCap : Nat)
    (allocOk : Bool) (sched : Nat → IterEvents) (persistStatus : Status)
    (fuel : Nat) : Option RunResult :=
  let startSector := 0
  let numberEncryptedSectors :=
    cryptoInfo.encryptedAreaLength >>> TC_LB_SIZE_BIT_SHIFT_DIVISOR
  let endEncryptedArea := startSector + numberEncryptedSectors
  let sectorsInVolume := cryptoInfo.volumeSize >>> TC_LB_SIZE_BIT_SHIFT_DIVISOR
  if endEncryptedArea > startSector + sectorsInVolume then
    some (.ok .volumeCorrupted cryptoInfo 0 [])
  else if allocOk = false then
    some (.ok .outOfResources cryptoInfo 0 [])
  else
    match convLoop encrypt sched fuel (initLoopSt cryptoInfo encrypt bufCap) with
    | none => none
    | some s =>
      match s.errVar with
      | none => some .undef
      | some e =>
        if EFI_ERROR e = true then some (.ok e cryptoInfo 0 s.acts)
        else some (finishRun cryptoInfo encrypt persistStatus s)

/-- An event schedule on which every read and write succeeds and the
user never presses ESC. -/
def schedAllOk : Nat → IterEvents := fun _ => ⟨true, true, false⟩

/-- The values of cs_enum_user_decision that this file assigns:
CS_UI_SERVICE_MENU, CS_UI_ESC_PRESSED and CS_UI_REBOOT. -/
inductive UserDecision where
  | serviceMenu
  | escPressed
  | reboot
  deriving DecidableEq

/-- One pass of the password-prompt loop of check_user_password as the
external world sees it: either the console output or input call fails
with an error, or the user presses the ESC key (scan code 0x17), or the
user enters a password on which decrypt_volume_header returns the given
status (EFI_ACCESS_DENIED meaning wrong password, which re-prompts). -/
inductive PwEvent where
  | inputError (e : Status)
  | escKey
  | password (headerStatus : Status)

/-- The do-while retry loop of check_user_password (cs_service.c lines
52-75); none models a session in which the supplied prompt events run
out, that is the user keeps typing wrong passwords forever. -/
def checkPwLoop : List PwEvent → Option (Status × Option UserDecision)
  | [] => none
  | .inputError e :: _ => some (e, none)
  | .escKey :: _ => some (.success, some .escPressed)
  | .password headerStatus :: rest =>
    if headerStatus = .accessDenied then checkPwLoop rest
    else some (headerStatus, none)

/-- check_user_password (cs_service.c lines 36-78).  When the options do
not request silence the initial OutputString result can already abort
the function; otherwise the prompt loop decides.  The optional
UserDecision is CS_UI_ESC_PRESSED exactly when the user pressed ESC. -/
def check_user_password (silent : Bool) (conOutStatus : Status)
    (events : List PwEvent) : Option (Status × Option UserDecision) :=
  if silent = false ∧ EFI_ERROR conOutStatus = true then some (conOutStatus, none)
  else checkPwLoop events

/-- One entry of the EFI_OPEN_PROTOCOL_INFORMATION_ENTRY array returned
by OpenProtocolInformation: the attribute mask under which an agent
opened the BlockIo protocol of the parent, and the agent's controller
handle (handles are modelled as bare numbers). -/
structure OpenInfoEntry where
  attributes : Nat
  controllerHandle : Nat
  deriving DecidableEq

/-- EFI_OPEN_PROTOCOL_BY_CHILD_CONTROLLER, value 0x8 per the UEFI
specification. -/
def EFI_OPEN_PROTOCOL_BY_CHILD_CONTROLLER : Nat := 8

/-- Whether an open-protocol entry carries the child-controller
attachment attribute (the mask test of cs_service.c lines 113-114). -/
def hasChildAttr (e : OpenInfoEntry) : Bool :=
  e.attributes &&& EFI_OPEN_PROTOCOL_BY_CHILD_CONTROLLER =
    EFI_OPEN_PROTOCOL_BY_CHILD_CONTROLLER

/-- The candidate scan of get_cs_child (cs_service.c lines 112-129):
walk the open-protocol entries, probe each child-controller candidate
with is_cs_child_device (supplied as the predicate isCs, recording each
probed handle), and stop at the first candidate that passes.  Returns
the accepted handle, if any, and the list of probed handles. -/
def findChild (isCs : Nat → Bool) : List OpenInfoEntry → Option Nat × List Nat
  | [] => (none, [])
  | e :: rest =>
    if hasChildAttr e then
      if isCs e.controllerHandle then (some e.controllerHandle, [e.controllerHandle])
      else
        let r := findChild isCs rest
        (r.1, e.controllerHandle :: r.2)
    else findChild isCs rest

/-- Result of get_cs_child: the returned status, the child handle
written to the output buffer, whether FreePool released the enumeration
buffer, and the handles probed with is_cs_child_device. -/
structure GetChildResult where
  status : Status
  child : Option Nat
  freedBuffer : Bool
  probed : List Nat
  deriving DecidableEq

/-- get_cs_child (cs_service.c lines 94-140).  The openInfo argument is
what OpenProtocolInformation returns: an error (in which case no buffer
was allocated and the error is passed through) or the entry list.  With
an entry list, the first child-controller candidate accepted by the
is_cs_child_device probe becomes the child; the buffer is freed in
either case, and a missing match turns the status into EFI_NO_MEDIA. -/
def get_cs_child (openInfo : Except Status (List OpenInfoEntry))
    (isCs : Nat → Bool) : GetChildResult :=
  match openInfo with
  | .error e => { status := e, child := none, freedBuffer := false, probed := [] }
  | .ok entries =>
    let r := findChild isCs entries
    match r.1 with
    | some h => { status := .success, child := some h, freedBuffer := true, probed := r.2 }
    | none => { status := .noMedia, child := none, freedBuffer := true, probed := r.2 }

/-- Which of the two Block I/O protocol interfaces are still open, for
tracking the all-or-nothing acquisition contract. -/
structure ProtoState where
  parentOpen : Bool
  childOpen : Bool
  deriving DecidableEq

/-- open_blockio_protocols (cs_service.c lines 196-221).  The
parameters are the statuses the two underlying OpenProtocol calls and
the compensating CloseProtocol call would return.  If the parent open
fails nothing is open; if the child open fails after the parent
succeeded, CloseProtocol is invoked on the parent (its own failure is
only logged) before the child's error is returned; only when both opens
succeed does the pair stay open. -/
def open_blockio_protocols (parentOpenStatus childOpenStatus closeParentStatus : Status) :
    Status × ProtoState :=
  if EFI_ERROR parentOpenStatus = false then
    if EFI_ERROR childOpenStatus = false then
      (childOpenStatus, { parentOpen := true, childOpen := true })
    else
      (childOpenStatus, { parentOpen := false, childOpen := false })
  else (parentOpenStatus, { parentOpen := false, childOpen := false })

/-- The external inputs of one invocation of encrypt_decrypt_media: the
silent option flag, the outcomes of every external call the orchestrator
makes (console output, password prompt events, the check_really_do
confirmation, driver start, protocol enumeration with the child-identity
probe, the two protocol opens with the compensating close, buffer
allocation, the per-iteration block I/O and ESC events, the header
persistence result), together with the unlocked header, the direction
flag and the loop fuel. -/
structure OrchIn where
  silent : Bool
  conOutStatus : Status
  pwEvents : List PwEvent
  reallyDo : Bool
  driverStatus : Status
  openInfo : Except Status (List OpenInfoEntry)
  isCsChild : Nat → Bool
  parentOpenStatus : Status
  childOpenStatus : Status
  closeParentStatus : Status
  cryptoInfo : CRYPTO_INFO
  allocOk : Bool
  sched : Nat → IterEvents
  persistStatus : Status
  fuel : Nat
  encrypt : Bool

/-- Observable outcome of one invocation of encrypt_decrypt_media: the
returned status, the user_decision output value, the header as left in
memory, the number of update_blocks_in_volume_header calls, whether
start_connect_fake_crypto_driver was invoked, and the block I/O trace. -/
structure OrchResult where
  status : Status
  decision : UserDecision
  cryptoInfo : CRYPTO_INFO
  updateCalls : Nat
  driverStarted : Bool
  ioActs : List Action
  deriving DecidableEq

/-- encrypt_decrypt_media (cs_service.c lines 423-489), the service-menu
orchestrator.  user_decision starts as CS_UI_SERVICE_MENU; a password
error returns it unchanged; an ESC press is reset to CS_UI_SERVICE_MENU
and reported as success; declining the check_really_do confirmation
returns success; driver start, child discovery and protocol-open
failures return their errors; otherwise do_encrypt_decrypt_media runs,
both interfaces are closed (close failures only logged) and
user_decision becomes CS_UI_REBOOT whatever the conversion returned.
The result is none when the embedded run is undefined (fuel exhaustion
or the uninitialized-status read of do_encrypt_decrypt_media). -/
def encrypt_decrypt_media (inp : OrchIn) : Option OrchResult :=
  match check_user_password inp.silent inp.conOutStatus inp.pwEvents with
  | none => none
  | some (error, ud) =>
    if EFI_ERROR error = true then
      some { status := error, decision := .serviceMenu, cryptoInfo := inp.cryptoInfo,
             updateCalls := 0, driverStarted := false, ioActs := [] }
    else if ud = some .escPressed then
      some { status := .success, decision := .serviceMenu, cryptoInfo := inp.cryptoInfo,
             updateCalls := 0, driverStarted := false, ioActs := [] }
    else if inp.reallyDo = false then
      some { status := .success, decision := .serviceMenu, cryptoInfo := inp.cryptoInfo,
             updateCalls := 0, driverStarted := false, ioActs := [] }
    else if EFI_ERROR inp.driverStatus = true then
      some { status := inp.driverStatus, decision := .serviceMenu,
             cryptoInfo := inp.cryptoInfo, updateCalls := 0, driverStarted := true,
             ioActs := [] }
    else
      let g := get_cs_child inp.openInfo inp.isCsChild
      if EFI_ERROR g.status = true then
        some { status := g.status, decision := .serviceMenu, cryptoInfo := inp.cryptoInfo,
               updateCalls := 0, driverStarted := true, ioActs := [] }
      else
        let op := open_blockio_protocols inp.parentOpenStatus inp.childOpenStatus
          inp.closeParentStatus
        if EFI_ERROR op.1 = true then
          some { status := op.1, decision := .serviceMenu, cryptoInfo := inp.cryptoInfo,
                 updateCalls := 0, driverStarted := true, ioActs := [] }
        else
          match do_encrypt_decrypt_media inp.cryptoInfo inp.encrypt
              CS_SERVICE_NUMBER_SECTORS inp.allocOk inp.sched inp.persistStatus
              inp.fuel with
          | none => none
          | some .undef => none
          | some (.ok st ci u acts) =>
            some { status := st, decision := .reboot, cryptoInfo := ci,
                   updateCalls := u, driverStarted := true, ioActs := acts }

/-- A header for a freshly-unlocked, not-yet-encrypted volume of 1000
sectors starting at byte offset 0, as in the spec's scenarios. -/
def ciThousand : CRYPTO_INFO :=
  { encryptedAreaStart := 0, encryptedAreaLength := 0,
    volumeSize := 1000 <<< TC_LB_SIZE_BIT_SHIFT_DIVISOR }

/-- Orchestrator inputs of the spec's happy-path scenario: correct
password on the first prompt, confirmation given, every external call
succeeds, no cancellation, encrypt direction over ciThousand. -/
def inpHappy : OrchIn :=
  { silent := true, conOutStatus := .success, pwEvents := [.password .success],
    reallyDo := true, driverStatus := .success,
    openInfo := .ok [{ attributes := 8, controllerHandle := 42 }],
    isCsChild := fun _ => true, parentOpenStatus := .success,
    childOpenStatus := .success, closeParentStatus := .success,
    cryptoInfo := ciThousand, allocOk := true, sched := schedAllOk,
    persistStatus := .success, fuel := 20, encrypt := true }

/-- The same run with an abort keystroke reported by the cancellation
poll at the end of the third chunk (iteration index 2). -/
def schedEscAfter3 : Nat → IterEvents := fun k => ⟨true, true, k = 2⟩

/-- inpHappy with the user aborting after the third chunk. -/
def inpEscAfter3 : OrchIn := { inpHappy with sched := schedEscAfter3 }

/-- inpHappy with the user pressing ESC at the first password prompt. -/
def inpEsc : OrchIn := { inpHappy with pwEvents := [.escKey] }

/-- An event schedule on which the very first ReadBlocks call fails. -/
def schedReadFail : Nat → IterEvents := fun _ => ⟨false, true, false⟩

/-- Number of calls made to update_blocks_in_volume_header during a run. -/
def updateCallsOf : RunResult → Nat
  | .undef => 0
  | .ok _ _ u _ => u

/-- Whether a trace entry is a ReadBlocks call. -/
def isReadAction : Action → Bool
  | .readBlocks _ _ => true
  | .writeBlocks _ _ => false

/-- The thirteen reads the spec's happy-path scenario predicts: twelve
chunks of 80 sectors and a final chunk of 40. -/
def c3reads : List Action :=
  ((List.range 12).map fun i => Action.readBlocks (80 * i) 80) ++
    [Action.readBlocks 960 40]

/-- A one-sector volume with nothing encrypted yet, for small concrete
runs. -/
def ciOneSector : CRYPTO_INFO :=
  { encryptedAreaStart := 0, encryptedAreaLength := 0,
    volumeSize := 1 <<< TC_LB_SIZE_BIT_SHIFT_DIVISOR }

/-- The loop state after the single successful chunk of an encrypt run
over ciOneSector with a one-sector buffer. -/
def sOneDone : LoopSt :=
  { lba := 1, numberSectors := 0, bufferSectors := 0, errVar := some .success,
    iter := 1, acts := [.readBlocks 0 1, .writeBlocks 0 1] }

/-- The header a complete encrypt run over ciOneSector persists: the
whole single sector converted. -/
def ciOneDone : CRYPTO_INFO :=
  { encryptedAreaStart := 0, encryptedAreaLength := 512, volumeSize := 512 }

/-- A volume of 1000 sectors that is already fully encrypted, so an
encrypt run has zero sectors left to process. -/
def ciFullyEncrypted : CRYPTO_INFO :=
  { encryptedAreaStart := 0,
    encryptedAreaLength := 1000 <<< TC_LB_SIZE_BIT_SHIFT_DIVISOR,
    volumeSize := 1000 <<< TC_LB_SIZE_BIT_SHIFT_DIVISOR }

theorem W_pos : 0 < W := by norm_num [W]

theorem add64_lt (a b : Nat) : add64 a b < W := Nat.mod_lt _ W_pos

theorem sub64_lt (a b : Nat) : sub64 a b < W := Nat.mod_lt _ W_pos

theorem add64_eq (a b : Nat) (h : a + b < W) : add64 a b = a + b :=
  Nat.mod_eq_of_lt h

theorem sub64_eq (a b : Nat) (hba : b ≤ a) (ha : a < W) : sub64 a b = a - b := by
  simp only [sub64, W] at *
  omega

/-- The wrapping step of the encrypt sweep preserves the sum of cursor
and remaining-sector count modulo the word size. -/
theorem add64_sub64_sum (l n b : Nat) (hb : b < W) :
    (add64 l b + sub64 n b) % W = (l + n) % W := by
  simp only [add64, sub64, W] at *
  omega

theorem EFI_ERROR_false_iff (e : Status) : EFI_ERROR e = false ↔ e = .success := by
  cases e <;> simp [EFI_ERROR]

theorem stepState_encrypt_fields (s : LoopSt) :
    (stepState true s).lba = add64 s.lba s.bufferSectors ∧
    (stepState true s).numberSectors = sub64 s.numberSectors s.bufferSectors ∧
    (stepState true s).errVar = some Status.success := by
  refine ⟨?_, rfl, rfl⟩
  simp [stepState]

theorem stepState_decrypt_fields (s : LoopSt) :
    (stepState false s).numberSectors = sub64 s.numberSectors s.bufferSectors ∧
    (stepState false s).bufferSectors =
      (if sub64 s.numberSectors s.bufferSectors < s.bufferSectors then
        sub64 s.numberSectors s.bufferSectors else s.bufferSectors) ∧
    (stepState false s).lba = sub64 s.lba (stepState false s).bufferSectors ∧
    (stepState false s).errVar = some Status.success := by
  refine ⟨rfl, rfl, ?_, rfl⟩
  simp [stepState]

/-- Invariant of the encrypt-direction copy loop under an event schedule
with no failures and no cancellation: the loop drains numberSectors to
zero, the sum of cursor and remaining sector count is preserved modulo
the word size, and the status variable is success as soon as at least
one iteration ran. -/
theorem convLoop_encrypt_allOk (fuel : Nat) : ∀ (s s' : LoopSt),
    s.bufferSectors < W → s.lba < W →
    convLoop true schedAllOk fuel s = some s' →
    s'.numberSectors = 0 ∧ s'.lba < W ∧
      (s'.lba + s'.numberSectors) % W = (s.lba + s.numberSectors) % W ∧
      s'.errVar = (if s.numberSectors = 0 then s.errVar else some Status.success) := by
  induction fuel with
  | zero => intro s s' _ _ h; simp [convLoop] at h
  | succ fuel ih =>
    intro s s' hb hl h
    by_cases h0 : s.numberSectors = 0
    · rw [convLoop, if_pos h0] at h
      injection h with h
      subst h
      exact ⟨h0, hl, rfl, by rw [if_pos h0]⟩
    · rw [convLoop, if_neg h0] at h
      simp only [schedAllOk, Bool.true_eq_false, if_false] at h
      obtain ⟨he1, he2, he3⟩ := stepState_encrypt_fields s
      have hbs : (stepState true s).bufferSectors < W := by
        show (if _ then _ else _) < W
        split
        · exact sub64_lt _ _
        · exact hb
      obtain ⟨hn', hl', hmod, herr⟩ := ih _ s' hbs (he1 ▸ add64_lt _ _) h
      refine ⟨hn', hl', ?_, ?_⟩
      · rw [hmod, he1, he2, add64_sub64_sum _ _ _ hb]
      · rw [herr, he3, ite_self, if_neg h0]

/-- Invariant of the decrypt-direction copy loop under an event schedule
with no failures and no cancellation: starting from the setup relation
lba = numberSectors - bufferSectors with bufferSectors at most
numberSectors (which the decrypt initialization establishes), the loop
ends with cursor, buffer width and remaining sector count all zero, and
the status variable success as soon as at least one iteration ran. -/
theorem convLoop_decrypt_allOk (fuel : Nat) : ∀ (s s' : LoopSt),
    s.numberSectors < W → s.bufferSectors ≤ s.numberSectors →
    s.lba = s.numberSectors - s.bufferSectors →
    convLoop false schedAllOk fuel s = some s' →
    s'.numberSectors = 0 ∧ s'.bufferSectors = 0 ∧ s'.lba = 0 ∧
      s'.errVar = (if s.numberSectors = 0 then s.errVar else some Status.success) := by
  induction fuel with
  | zero => intro s s' _ _ _ h; simp [convLoop] at h
  | succ fuel ih =>
    intro s s' hn hbn hlba h
    by_cases h0 : s.numberSectors = 0
    · rw [convLoop, if_pos h0] at h
      injection h with h
      subst h
      have hb0 : s.bufferSectors = 0 := Nat.le_antisymm (h0 ▸ hbn) (Nat.zero_le _)
      refine ⟨h0, hb0, ?_, by rw [if_pos h0]⟩
      rw [hlba, h0, hb0]
    · rw [convLoop, if_neg h0] at h
      simp only [schedAllOk, Bool.true_eq_false, if_false] at h
      obtain ⟨hd1, hd2, hd3, hd4⟩ := stepState_decrypt_fields s
      have hsub : sub64 s.numberSectors s.bufferSectors =
          s.numberSectors - s.bufferSectors := sub64_eq _ _ hbn hn
      have hn1 : (stepState false s).numberSectors = s.numberSectors - s.bufferSectors := by
        rw [hd1, hsub]
      have hb1 : (stepState false s).bufferSectors ≤ (stepState false s).numberSectors := by
        rw [hd2, hn1, hsub]
        split <;> omega
      have hl1 : (stepState false s).lba =
          (stepState false s).numberSectors - (stepState false s).bufferSectors := by
        rw [hd3, hlba, hn1]
        exact sub64_eq _ _ (hn1 ▸ hb1) (by omega)
      obtain ⟨hn', hb', hl', herr⟩ := ih _ s' (by rw [hn1]; omega) hb1 hl1 h
      refine ⟨hn', hb', hl', ?_⟩
      rw [herr, hd4, ite_self, if_neg h0]

/-- update_blocks_in_volume_header keeps the header invariant: it never
stores an EncryptedAreaLength above VolumeSize, and it leaves
EncryptedAreaStart and VolumeSize untouched. -/
theorem update_blocks_bounds (p : Nat) (ci : CRYPTO_INFO) (encrypt : Bool) (ps : Status)
    (hinv : ci.encryptedAreaLength ≤ ci.volumeSize) :
    ((update_blocks_in_volume_header p ci encrypt ps).2.1).encryptedAreaLength ≤
      ((update_blocks_in_volume_header p ci encrypt ps).2.1).volumeSize ∧
    ((update_blocks_in_volume_header p ci encrypt ps).2.1).volumeSize = ci.volumeSize ∧
    ((update_blocks_in_volume_header p ci encrypt ps).2.1).encryptedAreaStart =
      ci.encryptedAreaStart := by
  simp only [update_blocks_in_volume_header]
  split
  · exact ⟨hinv, rfl, rfl⟩
  · rename_i hrange
    push_neg at hrange
    refine ⟨?_, rfl, rfl⟩
    show (p - _) <<< _ ≤ ci.volumeSize
    calc (p - ci.encryptedAreaStart >>> TC_LB_SIZE_BIT_SHIFT_DIVISOR) <<<
          TC_LB_SIZE_BIT_SHIFT_DIVISOR
        ≤ (ci.volumeSize >>> TC_LB_SIZE_BIT_SHIFT_DIVISOR) <<<
          TC_LB_SIZE_BIT_SHIFT_DIVISOR := by
          simp only [Nat.shiftLeft_eq]
          exact Nat.mul_le_mul_right _ (by omega)
      _ ≤ ci.volumeSize := by
          simp only [Nat.shiftLeft_eq, Nat.shiftRight_eq_div_pow]
          exact Nat.div_mul_le_self _ _

/-- Every run of do_encrypt_decrypt_media that returns a status and a
header preserves the header invariant: if EncryptedAreaLength was at
most VolumeSize on entry it still is on exit, and EncryptedAreaStart and
VolumeSize are never changed. -/
theorem do_run_bounds (ci : CRYPTO_INFO) (encrypt : Bool) (bufCap : Nat) (allocOk : Bool)
    (sched : Nat → IterEvents) (persistStatus : Status) (fuel : Nat)
    (st : Status) (ci' : CRYPTO_INFO) (u : Nat) (a : List Action)
    (hinv : ci.encryptedAreaLength ≤ ci.volumeSize)
    (h : do_encrypt_decrypt_media ci encrypt bufCap allocOk sched persistStatus fuel =
      some (.ok st ci' u a)) :
    ci'.encryptedAreaLength ≤ ci'.volumeSize ∧ ci'.volumeSize = ci.volumeSize ∧
      ci'.encryptedAreaStart = ci.encryptedAreaStart := by
  simp only [do_encrypt_decrypt_media] at h
  split at h
  · injection h with h
    cases h
    exact ⟨hinv, rfl, rfl⟩
  · split at h
    · injection h with h
      cases h
      exact ⟨hinv, rfl, rfl⟩
    · split at h
      · exact absurd h (by simp)
      · split at h
        · exact absurd h (by simp)
        · split at h
          · injection h with h
            cases h
            exact ⟨hinv, rfl, rfl⟩
          · simp only [finishRun] at h
            injection h with h
            cases h
            exact update_blocks_bounds _ ci encrypt persistStatus hinv

/-- C4 (confirmed): whenever processedLba lies outside the closed
interval from startSector to startSector + sectorsInVolume (both derived
from the header by the sector-size shift), update_blocks_in_volume_header
returns EFI_VOLUME_CORRUPTED, leaves every header field (in particular
EncryptedAreaLength) unchanged, and never invokes the persistence
routine update_volume_header. -/
theorem C4_out_of_range_rejected (processedLba : Nat) (ci : CRYPTO_INFO)
    (encrypt : Bool) (persistStatus : Status)
    (h : processedLba < ci.encryptedAreaStart >>> TC_LB_SIZE_BIT_SHIFT_DIVISOR ∨
      processedLba > ci.encryptedAreaStart >>> TC_LB_SIZE_BIT_SHIFT_DIVISOR +
        ci.volumeSize >>> TC_LB_SIZE_BIT_SHIFT_DIVISOR) :
    update_blocks_in_volume_header processedLba ci encrypt persistStatus =
      (.volumeCorrupted, ci, false) := by
  simp only [update_blocks_in_volume_header]
  rw [if_pos h]

/-- C4 witness: a cursor of 5000 sectors on a 1000-sector volume
starting at offset 0 is rejected without touching the header. -/
theorem C4_out_of_range_rejected_witness :
    ((5000 : Nat) < ciThousand.encryptedAreaStart >>> TC_LB_SIZE_BIT_SHIFT_DIVISOR ∨
      (5000 : Nat) > ciThousand.encryptedAreaStart >>> TC_LB_SIZE_BIT_SHIFT_DIVISOR +
        ciThousand.volumeSize >>> TC_LB_SIZE_BIT_SHIFT_DIVISOR) ∧
    update_blocks_in_volume_header 5000 ciThousand true .success =
      (.volumeCorrupted, ciThousand, false) :=
  ⟨Or.inr (by decide),
   C4_out_of_range_rejected 5000 ciThousand true .success (Or.inr (by decide))⟩

/-- C7 (confirmed): for every header with EncryptedAreaLength at most
VolumeSize on entry, the invariant holds immediately before the
persistence operation (the header handed to
update_blocks_in_volume_header is the unmodified entry header, first
conjunct) and immediately after it: any header a run of
do_encrypt_decrypt_media returns still satisfies
EncryptedAreaLength at most VolumeSize — the recomputed length never
exceeds VolumeSize, and being a Nat it is never negative — while
VolumeSize and EncryptedAreaStart are never changed. -/
theorem C7_header_invariant (ci : CRYPTO_INFO) (encrypt : Bool) (bufCap : Nat)
    (allocOk : Bool) (sched : Nat → IterEvents) (persistStatus : Status) (fuel : Nat)
    (st : Status) (ci' : CRYPTO_INFO) (u : Nat) (a : List Action)
    (hinv : ci.encryptedAreaLength ≤ ci.volumeSize)
    (hrun : do_encrypt_decrypt_media ci encrypt bufCap allocOk sched persistStatus fuel =
      some (.ok st ci' u a)) :
    ci.encryptedAreaLength ≤ ci.volumeSize ∧
    ci'.encryptedAreaLength ≤ ci'.volumeSize ∧
    ci'.volumeSize = ci.volumeSize ∧ ci'.encryptedAreaStart = ci.encryptedAreaStart :=
  ⟨hinv, do_run_bounds ci encrypt bufCap allocOk sched persistStatus fuel st ci' u a
    hinv hrun⟩

/-- C7 witness: the invariant is preserved across a complete one-chunk
encrypt run over a one-sector volume. -/
theorem C7_header_invariant_witness :
    ciOneSector.encryptedAreaLength ≤ ciOneSector.volumeSize ∧
    do_encrypt_decrypt_media ciOneSector true 1 true schedAllOk .success 3 =
      some (.ok .success ciOneDone 1 [.readBlocks 0 1, .writeBlocks 0 1]) ∧
    (ciOneSector.encryptedAreaLength ≤ ciOneSector.volumeSize ∧
      ciOneDone.encryptedAreaLength ≤ ciOneDone.volumeSize ∧
      ciOneDone.volumeSize = ciOneSector.volumeSize ∧
      ciOneDone.encryptedAreaStart = ciOneSector.encryptedAreaStart) :=
  ⟨by decide, by decide,
   C7_header_invariant ciOneSector true 1 true schedAllOk .success 3 .success
     ciOneDone 1 [.readBlocks 0 1, .writeBlocks 0 1] (by decide) (by decide)⟩

/-- C8 (confirmed): Block I/O session acquisition is all-or-nothing.  On
every failure return of open_blockio_protocols no protocol interface
remains open: a parent-open failure opens nothing, and a child-open
failure after a successful parent open closes the parent interface
before the error is returned. -/
theorem C8_all_or_nothing (parentOpenStatus childOpenStatus closeParentStatus : Status)
    (h : EFI_ERROR
      (open_blockio_protocols parentOpenStatus childOpenStatus closeParentStatus).1 =
      true) :
    (open_blockio_protocols parentOpenStatus childOpenStatus closeParentStatus).2 =
      { parentOpen := false, childOpen := false } := by
  unfold open_blockio_protocols at h ⊢
  rcases hp : EFI_ERROR parentOpenStatus <;> rcases hc : EFI_ERROR childOpenStatus <;>
    simp [hp, hc] at h ⊢

/-- C8 witness: the child interface failing to open after the parent
opened successfully leaves nothing open. -/
theorem C8_all_or_nothing_witness :
    EFI_ERROR (open_blockio_protocols .success .deviceError .success).1 = true ∧
    (open_blockio_protocols .success .deviceError .success).2 =
      { parentOpen := false, childOpen := false } :=
  ⟨by decide, C8_all_or_nothing .success .deviceError .success (by decide)⟩

/-- C10 (code bug): the claim that the local status variable of
do_encrypt_decrypt_media is assigned on every path before it is read is
violated by the source.  When the number of sectors to process is zero —
encrypt with EncryptedAreaLength equal to VolumeSize, or decrypt with
EncryptedAreaLength zero — and the transfer-buffer allocation succeeds,
the copy loop body never runs, no read or write is issued, and the test
of the status variable after the loop (cs_service.c line 393) reads it
while still uninitialized: both such runs evaluate to the undef marker. -/
theorem C10_uninitialized_status_read :
    do_encrypt_decrypt_media ciFullyEncrypted true CS_SERVICE_NUMBER_SECTORS true
      schedAllOk .success 5 = some .undef ∧
    do_encrypt_decrypt_media ciThousand false CS_SERVICE_NUMBER_SECTORS true
      schedAllOk .success 5 = some .undef := by
  exact ⟨by decide, by decide⟩

/-- C1 counterexample: a run over a fresh 1000-sector volume whose very
first ReadBlocks call fails.  The transfer buffer was allocated and the
copy loop exited through a read failure, yet the returned run shows zero
calls to update_blocks_in_volume_header — not the exactly-once the claim
states — because the header update at cs_service.c line 396 is guarded
by the status test at line 393. -/
theorem C1_persist_on_error_counterexample :
    do_encrypt_decrypt_media ciThousand true 80 true schedReadFail .success 10 =
      some (.ok .deviceError ciThousand 0 [.readBlocks 0 80]) ∧ (0 : Nat) ≠ 1 := by
  exact ⟨by decide, by decide⟩

/-- C1 (corrected): when the transfer buffer was allocated and the copy
loop exits leaving status e, the function invokes
update_blocks_in_volume_header exactly once — computing the final cursor
and translating it to a disk-relative LBA — if and only if e is not an
error, that is on completion and on user cancellation; when the loop
exits through a read or write failure the error is returned without any
persistence call. -/
theorem C1_persist_exactly_once_on_success (ci : CRYPTO_INFO) (encrypt : Bool)
    (bufCap : Nat) (sched : Nat → IterEvents) (persistStatus : Status) (fuel : Nat)
    (s : LoopSt) (e : Status)
    (hguard : ci.encryptedAreaLength >>> TC_LB_SIZE_BIT_SHIFT_DIVISOR ≤
      ci.volumeSize >>> TC_LB_SIZE_BIT_SHIFT_DIVISOR)
    (hloop : convLoop encrypt sched fuel (initLoopSt ci encrypt bufCap) = some s)
    (herr : s.errVar = some e) :
    (do_encrypt_decrypt_media ci encrypt bufCap true sched persistStatus fuel).map
      updateCallsOf = some (if EFI_ERROR e = true then 0 else 1) := by
  simp only [do_encrypt_decrypt_media, hloop, herr]
  rw [if_neg (by omega)]
  by_cases he : EFI_ERROR e = true <;>
    simp [he, updateCallsOf, finishRun]

/-- C1 witness: a complete one-chunk encrypt run over a one-sector
volume makes exactly one persistence call. -/
theorem C1_persist_exactly_once_on_success_witness :
    (ciOneSector.encryptedAreaLength >>> TC_LB_SIZE_BIT_SHIFT_DIVISOR ≤
      ciOneSector.volumeSize >>> TC_LB_SIZE_BIT_SHIFT_DIVISOR) ∧
    convLoop true schedAllOk 3 (initLoopSt ciOneSector true 1) = some sOneDone ∧
    sOneDone.errVar = some .success ∧
    (do_encrypt_decrypt_media ciOneSector true 1 true schedAllOk .success 3).map
      updateCallsOf = some (if EFI_ERROR .success = true then 0 else 1) :=
  ⟨by decide, by decide, by decide,
   C1_persist_exactly_once_on_success ciOneSector true 1 schedAllOk .success 3
     sOneDone .success (by decide) (by decide) (by decide)⟩

/-- C2 counterexample: with the ESC key pressed at the first password
prompt the orchestrator does return success with no driver activation
and no device I/O, but the user_decision output it leaves behind is
CS_UI_SERVICE_MENU, not CS_UI_ESC_PRESSED: cs_service.c line 441 resets
the decision before returning. -/
theorem C2_esc_decision_counterexample :
    encrypt_decrypt_media inpEsc =
      some { status := .success, decision := .serviceMenu, cryptoInfo := ciThousand,
             updateCalls := 0, driverStarted := false, ioActs := [] } ∧
    UserDecision.serviceMenu ≠ UserDecision.escPressed := by
  exact ⟨by decide, by decide⟩

/-- C2 (corrected): if the user presses ESC at the first password prompt
(and the initial console write did not itself fail), the orchestrator
performs no driver activation and no device I/O, returns success, leaves
the header untouched, and its user_decision output equals ServiceMenu —
the EscPressed marker set by the password routine is reset to
ServiceMenu before encrypt_decrypt_media returns. -/
theorem C2_esc_short_circuits (inp : OrchIn) (rest : List PwEvent)
    (hpw : inp.pwEvents = .escKey :: rest)
    (hcon : inp.silent = true ∨ EFI_ERROR inp.conOutStatus = false) :
    encrypt_decrypt_media inp =
      some { status := .success, decision := .serviceMenu, cryptoInfo := inp.cryptoInfo,
             updateCalls := 0, driverStarted := false, ioActs := [] } := by
  have hcu : check_user_password inp.silent inp.conOutStatus inp.pwEvents =
      some (.success, some .escPressed) := by
    unfold check_user_password
    rw [hpw]
    have hnot : ¬ (inp.silent = false ∧ EFI_ERROR inp.conOutStatus = true) := by
      rcases hcon with h | h <;> simp [h]
    rw [if_neg hnot]
    rfl
  simp [encrypt_decrypt_media, hcu, EFI_ERROR]

/-- C2 witness: the concrete ESC-at-first-prompt input. -/
theorem C2_esc_short_circuits_witness :
    inpEsc.pwEvents = .escKey :: [] ∧
    (inpEsc.silent = true ∨ EFI_ERROR inpEsc.conOutStatus = false) ∧
    encrypt_decrypt_media inpEsc =
      some { status := .success, decision := .serviceMenu, cryptoInfo := inpEsc.cryptoInfo,
             updateCalls := 0, driverStarted := false, ioActs := [] } :=
  ⟨rfl, Or.inl rfl, C2_esc_short_circuits inpEsc [] rfl (Or.inl rfl)⟩

/-- C3 (confirmed): the spec's happy-path scenario.  A 1000-sector
volume with nothing yet encrypted, encrypt direction, an 80-sector
buffer, all I/O succeeding and no cancellation: the loop issues exactly
13 reads — twelve 80-sector chunks and a final 40-sector chunk — the
persisted EncryptedAreaLength equals 1000 sectors converted to bytes,
exactly one persistence call is made, and the orchestrator returns
success with decision Reboot. -/
theorem C3_happy_path_scenario :
    ∃ r : OrchResult, encrypt_decrypt_media inpHappy = some r ∧
      r.ioActs.filter isReadAction = c3reads ∧
      (r.ioActs.filter isReadAction).length = 13 ∧
      r.cryptoInfo.encryptedAreaLength = 1000 <<< TC_LB_SIZE_BIT_SHIFT_DIVISOR ∧
      r.updateCalls = 1 ∧ r.status = .success ∧ r.decision = .reboot := by
  refine ⟨_, rfl, ?_, ?_, ?_, ?_, ?_, ?_⟩ <;> decide

/-- C5 (confirmed): the spec's cancellation scenario.  Same volume and
direction, all I/O succeeding, abort keystroke reported after the third
chunk: the loop stops after that chunk (exactly three reads), the
persisted EncryptedAreaLength corresponds to 240 sectors, exactly one
persistence call is made, no error is surfaced, and the decision is
Reboot. -/
theorem C5_cancel_after_three_chunks :
    ∃ r : OrchResult, encrypt_decrypt_media inpEscAfter3 = some r ∧
      r.ioActs.filter isReadAction =
        [.readBlocks 0 80, .readBlocks 80 80, .readBlocks 160 80] ∧
      r.cryptoInfo.encryptedAreaLength = 240 <<< TC_LB_SIZE_BIT_SHIFT_DIVISOR ∧
      r.updateCalls = 1 ∧ r.status = .success ∧ r.decision = .reboot := by
  refine ⟨_, rfl, ?_, ?_, ?_, ?_, ?_⟩ <;> decide

/-- The candidate scan of get_cs_child is a first-match search: the
accepted handle is the first child-controller entry passing the identity
probe, and the probed handles are exactly the failing candidates before
it, followed by the accepted one when there is one — iteration stops at
the first match. -/
theorem findChild_spec (isCs : Nat → Bool) : ∀ entries : List OpenInfoEntry,
    (findChild isCs entries).1 = Option.map (fun e => e.controllerHandle)
      ((entries.filter hasChildAttr).find? fun e => isCs e.controllerHandle) ∧
    (findChild isCs entries).2 =
      (((entries.filter hasChildAttr).map fun e => e.controllerHandle).takeWhile
        fun h => !(isCs h)) ++ ((findChild isCs entries).1).toList
  | [] => by simp [findChild]
  | e :: rest => by
    obtain ⟨ih1, ih2⟩ := findChild_spec isCs rest
    by_cases hc : hasChildAttr e
    · by_cases hi : isCs e.controllerHandle
      · simp [findChild, hc, hi, List.filter_cons]
      · simp [findChild, hc, hi, List.filter_cons, ih1, ih2]
    · simp [findChild, hc, List.filter_cons, ih1, ih2]

/-- C9 (confirmed): device discovery over an enumerated entry list
always frees the enumeration buffer; the accepted child is the first
child-controller candidate that passes the driver-identity probe (none
when no candidate passes, even if child-controller candidates exist);
the status is success exactly when such a candidate exists and
EFI_NO_MEDIA — the NotFound of the spec — otherwise; and the probed
handles show the scan stopping at the first match. -/
theorem C9_discovery_first_match (entries : List OpenInfoEntry) (isCs : Nat → Bool) :
    (get_cs_child (.ok entries) isCs).freedBuffer = true ∧
    (get_cs_child (.ok entries) isCs).child = Option.map (fun e => e.controllerHandle)
      ((entries.filter hasChildAttr).find? fun e => isCs e.controllerHandle) ∧
    (get_cs_child (.ok entries) isCs).status =
      (if ((entries.filter hasChildAttr).find?
          fun e => isCs e.controllerHandle).isSome = true
        then Status.success else Status.noMedia) ∧
    (get_cs_child (.ok entries) isCs).probed =
      (((entries.filter hasChildAttr).map fun e => e.controllerHandle).takeWhile
        fun h => !(isCs h)) ++ ((get_cs_child (.ok entries) isCs).child).toList := by
  obtain ⟨h1, h2⟩ := findChild_spec isCs entries
  rcases hf : (findChild isCs entries).1 with _ | ch
  · rw [hf] at h1 h2
    have hfind : (entries.filter hasChildAttr).find?
        (fun e => isCs e.controllerHandle) = none := by
      rcases hx : (entries.filter hasChildAttr).find?
          (fun e => isCs e.controllerHandle) with _ | v
      · exact hx
      · rw [hx] at h1; simp at h1
    refine ⟨?_, ?_, ?_, ?_⟩
    · simp only [get_cs_child, hf]
    · simp only [get_cs_child, hf]; exact h1
    · simp only [get_cs_child, hf, hfind]; simp
    · simp only [get_cs_child, hf]; exact h2
  · rw [hf] at h1 h2
    have hfind : ((entries.filter hasChildAttr).find?
        (fun e => isCs e.controllerHandle)).isSome = true := by
      rcases hx : (entries.filter hasChildAttr).find?
          (fun e => isCs e.controllerHandle) with _ | v
      · rw [hx] at h1; simp at h1
      · rw [hx]; rfl
    refine ⟨?_, ?_, ?_, ?_⟩
    · simp only [get_cs_child, hf]
    · simp only [get_cs_child, hf]; exact h1
    · simp only [get_cs_child, hf]
      rw [if_pos hfind]
    · simp only [get_cs_child, hf]; exact h2

theorem shiftRight_le_self (n k : Nat) : n >>> k ≤ n := by
  rw [Nat.shiftRight_eq_div_pow]
  exact Nat.div_le_self _ _

/-- A decrypt run of do_encrypt_decrypt_media that returns success under
an all-success, no-cancellation schedule always drives the backward
sweep down to sector zero and persists an EncryptedAreaLength of zero,
whatever the starting EncryptedAreaLength was. -/
theorem decrypt_run_zeroes (ci : CRYPTO_INFO) (bufCap : Nat) (allocOk : Bool)
    (persistStatus : Status) (fuel : Nat) (ci' : CRYPTO_INFO) (u : Nat) (a : List Action)
    (hstart : ci.encryptedAreaStart < W) (hlen : ci.encryptedAreaLength < W)
    (h : do_encrypt_decrypt_media ci false bufCap allocOk schedAllOk persistStatus fuel =
      some (.ok .success ci' u a)) :
    ci'.encryptedAreaLength = 0 := by
  simp only [do_encrypt_decrypt_media] at h
  split at h
  · simp at h
  · split at h
    · simp at h
    · split at h
      · simp at h
      · rename_i s hs
        split at h
        · simp at h
        · rename_i e he
          split at h
          · rename_i hEe
            simp only [Option.some.injEq, RunResult.ok.injEq] at h
            rw [h.1] at hEe
            simp [EFI_ERROR] at hEe
          · have hinit : initLoopSt ci false bufCap =
                { lba := (ci.encryptedAreaLength >>> TC_LB_SIZE_BIT_SHIFT_DIVISOR) -
                    (if (ci.encryptedAreaLength >>> TC_LB_SIZE_BIT_SHIFT_DIVISOR) <
                        bufCap then
                      ci.encryptedAreaLength >>> TC_LB_SIZE_BIT_SHIFT_DIVISOR
                    else bufCap),
                  numberSectors := ci.encryptedAreaLength >>> TC_LB_SIZE_BIT_SHIFT_DIVISOR,
                  bufferSectors :=
                    (if (ci.encryptedAreaLength >>> TC_LB_SIZE_BIT_SHIFT_DIVISOR) <
                        bufCap then
                      ci.encryptedAreaLength >>> TC_LB_SIZE_BIT_SHIFT_DIVISOR
                    else bufCap),
                  errVar := none, iter := 0, acts := [] } := by
              simp [initLoopSt]
            rw [hinit] at hs
            have hnesW : ci.encryptedAreaLength >>> TC_LB_SIZE_BIT_SHIFT_DIVISOR < W :=
              lt_of_le_of_lt (shiftRight_le_self _ _) hlen
            obtain ⟨hn', hb', hl', herr'⟩ := convLoop_decrypt_allOk fuel _ s hnesW
              (by show (if (ci.encryptedAreaLength >>> TC_LB_SIZE_BIT_SHIFT_DIVISOR) <
                    bufCap then ci.encryptedAreaLength >>> TC_LB_SIZE_BIT_SHIFT_DIVISOR
                  else bufCap) ≤ ci.encryptedAreaLength >>> TC_LB_SIZE_BIT_SHIFT_DIVISOR
                  split <;> omega) rfl hs
            have hdSW : ci.encryptedAreaStart >>> TC_LB_SIZE_BIT_SHIFT_DIVISOR < W :=
              lt_of_le_of_lt (shiftRight_le_self _ _) hstart
            have hupd : update_blocks_in_volume_header
                (ci.encryptedAreaStart >>> TC_LB_SIZE_BIT_SHIFT_DIVISOR) ci false
                persistStatus =
                (persistStatus, { ci with encryptedAreaLength := 0 }, true) := by
              simp only [update_blocks_in_volume_header]
              rw [if_neg (by push_neg; exact ⟨Nat.le_refl _, Nat.le_add_right _ _⟩)]
              simp
            have hfin : finishRun ci false persistStatus s =
                .ok persistStatus { ci with encryptedAreaLength := 0 } 1 s.acts := by
              simp only [finishRun, Bool.false_eq_true, if_false]
              rw [hl', hb', add64_eq 0 _ (by omega), Nat.zero_add,
                add64_eq _ 0 (by omega), Nat.add_zero, hupd]
            rw [hfin] at h
            simp only [Option.some.injEq, RunResult.ok.injEq] at h
            rw [← h.2.1]

/-- C6 (confirmed): round-trip over the full volume.  Starting from a
header with EncryptedAreaLength zero, running the conversion in Encrypt
direction to completion (all reads and writes succeed, no cancellation,
success returned) and then in Decrypt direction to completion returns
EncryptedAreaLength to its original value zero — for every volume start
and size and every buffer capacity for which the two runs complete. -/
theorem C6_encrypt_decrypt_round_trip (start vol bufCap : Nat) (alloc1 alloc2 : Bool)
    (persist1 persist2 : Status) (fuel1 fuel2 : Nat)
    (ci1 ci2 : CRYPTO_INFO) (u1 u2 : Nat) (a1 a2 : List Action)
    (hstart : start < W) (hvol : vol < W)
    (h1 : do_encrypt_decrypt_media
      { encryptedAreaStart := start, encryptedAreaLength := 0, volumeSize := vol }
      true bufCap alloc1 schedAllOk persist1 fuel1 = some (.ok .success ci1 u1 a1))
    (h2 : do_encrypt_decrypt_media ci1 false bufCap alloc2 schedAllOk persist2 fuel2 =
      some (.ok .success ci2 u2 a2)) :
    ci2.encryptedAreaLength =
      CRYPTO_INFO.encryptedAreaLength
        { encryptedAreaStart := start, encryptedAreaLength := 0, volumeSize := vol } := by
  obtain ⟨hb, hvol', hstart'⟩ := do_run_bounds _ true bufCap alloc1 schedAllOk persist1
    fuel1 .success ci1 u1 a1 (Nat.zero_le _) h1
  exact decrypt_run_zeroes ci1 bufCap alloc2 persist2 fuel2 ci2 u2 a2
    (by rw [hstart']; exact hstart)
    (lt_of_le_of_lt hb (by rw [hvol']; exact hvol)) h2

/-- C6 witness: a three-sector volume starting at byte offset 4096 with
a two-sector buffer; the encrypt run fills the volume, the decrypt run
restores EncryptedAreaLength to zero. -/
theorem C6_encrypt_decrypt_round_trip_witness :
    (4096 : Nat) < W ∧ (1536 : Nat) < W ∧
    do_encrypt_decrypt_media
      { encryptedAreaStart := 4096, encryptedAreaLength := 0, volumeSize := 1536 }
      true 2 true schedAllOk .success 10 =
      some (.ok .success
        { encryptedAreaStart := 4096, encryptedAreaLength := 1536, volumeSize := 1536 }
        1 [.readBlocks 0 2, .writeBlocks 0 2, .readBlocks 2 1, .writeBlocks 2 1]) ∧
    do_encrypt_decrypt_media
      { encryptedAreaStart := 4096, encryptedAreaLength := 1536, volumeSize := 1536 }
      false 2 true schedAllOk .success 10 =
      some (.ok .success
        { encryptedAreaStart := 4096, encryptedAreaLength := 0, volumeSize := 1536 }
        1 [.readBlocks 1 2, .writeBlocks 1 2, .readBlocks 0 1, .writeBlocks 0 1]) ∧
    CRYPTO_INFO.encryptedAreaLength
      { encryptedAreaStart := 4096, encryptedAreaLength := 0, volumeSize := 1536 } =
      CRYPTO_INFO.encryptedAreaLength
        { encryptedAreaStart := 4096, encryptedAreaLength := 0, volumeSize := 1536 } :=
  ⟨by decide, by decide, by decide, by decide,
   C6_encrypt_decrypt_round_trip 4096 1536 2 true true .success .success 10 10
     { encryptedAreaStart := 4096, encryptedAreaLength := 1536, volumeSize := 1536 }
     { encryptedAreaStart := 4096, encryptedAreaLength := 0, volumeSize := 1536 }
     1 1 [.readBlocks 0 2, .writeBlocks 0 2, .readBlocks 2 1, .writeBlocks 2 1]
     [.readBlocks 1 2, .writeBlocks 1 2, .readBlocks 0 1, .writeBlocks 0 1]
     (by decide) (by decide) (by decide) (by decide)⟩

end CipherShed
